import Mathlib

set_option maxHeartbeats 1000000

/-!
Shallow embedding of `pg_search/src/writer/index.rs`: the `Writer` entity that
interfaces with Tantivy indexes (a cache of one `IndexWriter` per directory plus a
`drop_requested` set), and its operations `insert`, `delete`, `commit`, `abort`,
`vacuum`, `create_index`, `drop_index`, `drop_index_on_commit` and the
`Handler<WriterRequest>` dispatcher.

External collaborators (the tantivy engine, the `WriterDirectory` filesystem
abstraction, schema construction) are represented by an environment `Env` recording
the outcome of each external call per directory. Pure state transitions and error
propagation are translated directly from the Rust source; operations return their
`Result` together with the post-state, and `commit` additionally returns the trace
of engine/filesystem calls it issued (prepare-commit, finalize-commit, recursive
removal), so that call-ordering properties can be stated.
-/

namespace PgSearch

/-- Identity of one index's on-disk location (`WriterDirectory` in the source:
an opaque, hashable, comparable key; modelled as `Nat`). -/
abbrev WriterDirectory := Nat

/-- A tantivy schema field handle (`tantivy::schema::Field`). -/
abbrev Field := Nat

/-- A document payload (`SearchDocument`), opaque to the writer. -/
abbrev SearchDocument := Nat

/-- One buffered mutation held by a tantivy `IndexWriter`:
either an added document or a term-deletion tombstone. -/
inductive WriterOp where
  | addDoc (doc : SearchDocument)
  | deleteTerm (field : Field) (value : Nat)
deriving DecidableEq, Repr

/-- Model of a tantivy `IndexWriter` instance: an identity (fresh per creation, so
distinct instances are distinguishable), its uncommitted buffered mutations, and the
mutations already made durable by successful commits. -/
structure IndexWriter where
  id : Nat
  buffer : List WriterOp
  committed : List WriterOp
deriving DecidableEq, Repr

/-- The typed errors surfaced by the writer's operations (the source's `IndexError`
variants together with the `anyhow` contexts added in `commit`/`create_index`). -/
inductive IndexError where
  | GetWriterFailed (d : WriterDirectory)
  | AddDocumentFailed
  | ExistsCheckFailed (d : WriterDirectory)
  | PrepareCommitFailed (d : WriterDirectory)
  | CommitFailed (d : WriterDirectory)
  | RollbackFailed (d : WriterDirectory)
  | GarbageCollectFailed (d : WriterDirectory)
  | SchemaError
  | DirPathFailed (d : WriterDirectory)
  | ReaderFailed (d : WriterDirectory)
  | SaveIndexFailed (d : WriterDirectory)
  | RemoveFailed (d : WriterDirectory)
deriving DecidableEq, Repr

/-- Outcomes of the external collaborators' calls, per directory. A `Bool` field
records whether the corresponding fallible external call succeeds; `exists_res`
returns `none` when the existence check itself errors. -/
structure Env where
  writer_ok : WriterDirectory → Bool
  add_document_ok : SearchDocument → Bool
  exists_res : WriterDirectory → Option Bool
  prepare_ok : WriterDirectory → Bool
  finalize_ok : WriterDirectory → Bool
  rollback_ok : WriterDirectory → Bool
  remove_ok : WriterDirectory → Bool
  gc_ok : WriterDirectory → Bool
  dir_path_ok : WriterDirectory → Bool
  create_in_dir_ok : WriterDirectory → Bool
  reader_ok : WriterDirectory → Bool
  save_ok : WriterDirectory → Bool

/-- The `Writer` struct: map of index directory path to Tantivy writer instance,
the set of directories whose drop is pending commit, and a counter supplying fresh
writer identities. -/
structure Writer where
  tantivy_writers : WriterDirectory → Option IndexWriter
  drop_requested : WriterDirectory → Bool
  next_id : Nat

/-- `Writer::new()`: empty cache, empty drop-pending set. -/
def Writer.new : Writer :=
  { tantivy_writers := fun _ => none
    drop_requested := fun _ => false
    next_id := 0 }

/-- External calls recorded in `commit`'s trace, in issue order. -/
inductive ExtCall where
  | prepare (d : WriterDirectory)
  | finalize (d : WriterDirectory)
  | remove (d : WriterDirectory)
deriving DecidableEq, Repr

/-- Replace (or insert) the cached writer entry for `d`. -/
def Writer.setEntry (s : Writer) (d : WriterDirectory) (w : IndexWriter) : Writer :=
  { s with tantivy_writers := fun x => if x = d then some w else s.tantivy_writers x }

/-- Remove the cached writer entry for `d` (`tantivy_writers.remove`). -/
def Writer.eraseEntry (s : Writer) (d : WriterDirectory) : Writer :=
  { s with tantivy_writers := fun x => if x = d then none else s.tantivy_writers x }

/-- Add `d` to the drop-pending set (`drop_requested.insert`). -/
def Writer.markDrop (s : Writer) (d : WriterDirectory) : Writer :=
  { s with drop_requested := fun x => if x = d then true else s.drop_requested x }

/-- Remove `d` from the drop-pending set (`drop_requested.remove`). -/
def Writer.clearDrop (s : Writer) (d : WriterDirectory) : Writer :=
  { s with drop_requested := fun x => if x = d then false else s.drop_requested x }

/-- `Writer::get_writer`: check the cache for an existing `IndexWriter`; if vacant,
have `SearchIndex::writer` create one (which may fail with `GetWriterFailed`) and
cache it; if occupied, return the cached instance. Returns the result together with
the post-state. -/
def Writer.get_writer (env : Env) (s : Writer) (d : WriterDirectory) :
    Except IndexError IndexWriter × Writer :=
  match s.tantivy_writers d with
  | some w => (.ok w, s)
  | none =>
    if env.writer_ok d then
      let w : IndexWriter := ⟨s.next_id, [], []⟩
      (.ok w, { (s.setEntry d w) with next_id := s.next_id + 1 })
    else
      (.error (.GetWriterFailed d), s)

/-- `Writer::insert`: acquire the writer, then `add_document` appends the document
to the writer's uncommitted buffer (failing with the engine's error if rejected). -/
def Writer.insert (env : Env) (s : Writer) (d : WriterDirectory)
    (document : SearchDocument) : Except IndexError Unit × Writer :=
  match s.get_writer env d with
  | (.error e, s1) => (.error e, s1)
  | (.ok w, s1) =>
    if env.add_document_ok document then
      (.ok (), s1.setEntry d { w with buffer := w.buffer ++ [.addDoc document] })
    else
      (.error .AddDocumentFailed, s1)

/-- `Writer::delete`: acquire the writer, then for each ctid in `ctid_values` issue
`delete_term` against `ctid_field` (tantivy's `delete_term` is infallible; it only
buffers a tombstone). -/
def Writer.delete (env : Env) (s : Writer) (d : WriterDirectory)
    (ctid_field : Field) (ctid_values : List Nat) : Except IndexError Unit × Writer :=
  match s.get_writer env d with
  | (.error e, s1) => (.error e, s1)
  | (.ok w, s1) =>
    (.ok (),
     s1.setEntry d { w with buffer := w.buffer ++ ctid_values.map (.deleteTerm ctid_field) })

/-- The tail of `Writer::commit`: if `directory` is in `drop_requested`, remove it
from the set and run `drop_index_on_commit` (remove and drop the cached writer
entry, then recursively remove the directory, which may fail). -/
def Writer.commitDropPhase (env : Env) (s : Writer) (d : WriterDirectory)
    (tr : List ExtCall) : Except IndexError Unit × Writer × List ExtCall :=
  if s.drop_requested d then
    let s1 := (s.clearDrop d).eraseEntry d
    if env.remove_ok d then
      (.ok (), s1, tr ++ [.remove d])
    else
      (.error (.RemoveFailed d), s1, tr ++ [.remove d])
  else
    (.ok (), s, tr)

/-- `Writer::commit`: if the directory exists on disk, acquire the writer and run the
two-step engine commit (`prepare_commit` then `commit`, each fallible, the second
only reached when the first succeeds); if the directory does not exist, log a
warning and skip the engine commit. Then, in either case, run the pending-drop
phase. Returns result, post-state, and the trace of external calls issued. -/
def Writer.commit (env : Env) (s : Writer) (d : WriterDirectory) :
    Except IndexError Unit × Writer × List ExtCall :=
  match env.exists_res d with
  | none => (.error (.ExistsCheckFailed d), s, [])
  | some true =>
    match s.get_writer env d with
    | (.error e, s1) => (.error e, s1, [])
    | (.ok w, s1) =>
      if env.prepare_ok d then
        if env.finalize_ok d then
          let s2 := s1.setEntry d { w with buffer := [], committed := w.committed ++ w.buffer }
          Writer.commitDropPhase env s2 d [.prepare d, .finalize d]
        else
          (.error (.CommitFailed d), s1, [.prepare d, .finalize d])
      else
        (.error (.PrepareCommitFailed d), s1, [.prepare d])
  | some false =>
    Writer.commitDropPhase env s d []

/-- `Writer::abort`: if a writer is cached for the directory, roll it back to the
last commit (discarding the uncommitted buffer); a rollback failure propagates
immediately via `?`. Only after a successful (or skipped) rollback is the directory
removed from `drop_requested`. -/
def Writer.abort (env : Env) (s : Writer) (d : WriterDirectory) :
    Except IndexError Unit × Writer :=
  match s.tantivy_writers d with
  | some w =>
    if env.rollback_ok d then
      (.ok (), ((s.setEntry d { w with buffer := [] }).clearDrop d))
    else
      (.error (.RollbackFailed d), s)
  | none => (.ok (), s.clearDrop d)

/-- `Writer::vacuum`: acquire the writer and block on the engine's garbage
collection of unreferenced files. -/
def Writer.vacuum (env : Env) (s : Writer) (d : WriterDirectory) :
    Except IndexError Unit × Writer :=
  match s.get_writer env d with
  | (.error e, s1) => (.error e, s1)
  | (.ok _, s1) =>
    if env.gc_ok d then (.ok (), s1) else (.error (.GarbageCollectFailed d), s1)

/-- Result of `create_index`, which can crash the process: the source unwraps the
engine's `create_in_dir` result with `.expect("failed to create index")`, so an
unusable on-disk location causes a panic, not a typed error. -/
inductive CreateOutcome where
  | ok
  | err (e : IndexError)
  | crash
deriving DecidableEq, Repr

/-- Whether `key_field_index` names a field present in the built schema.
Modelled from the spec: `SearchIndexSchema::new` lives outside the provided source;
the spec says creation "validates that `key_field_index` names a field present in the
schema (fails with `SchemaError` otherwise)". -/
def schemaKeyFieldValid (fields : List Nat) (key_field_index : Nat) : Bool :=
  key_field_index < fields.length

/-- `Writer::create_index`: build the schema (fallible, `SchemaError`), resolve the
tantivy directory path (fallible, typed IO error), physically create the index in
the directory — the source calls `.expect(...)` here, so this step crashes instead
of returning a typed error when the location is unusable — then set up tokenizers,
build a reader (fallible), and persist the index descriptor (fallible). The writer
cache and drop-pending set are untouched. -/
def Writer.create_index (env : Env) (s : Writer) (d : WriterDirectory)
    (fields : List Nat) (uuid : Nat) (key_field_index : Nat) : CreateOutcome × Writer :=
  let _ := uuid
  if schemaKeyFieldValid fields key_field_index then
    if env.dir_path_ok d then
      if env.create_in_dir_ok d then
        if env.reader_ok d then
          if env.save_ok d then (.ok, s) else (.err (.SaveIndexFailed d), s)
        else (.err (.ReaderFailed d), s)
      else (.crash, s)
    else (.err (.DirPathFailed d), s)
  else (.err .SchemaError, s)

/-- `Writer::drop_index`: record the directory in `drop_requested`; no files are
touched and the operation always succeeds. -/
def Writer.drop_index (s : Writer) (d : WriterDirectory) :
    Except IndexError Unit × Writer :=
  (.ok (), s.markDrop d)

/-- The typed operation set of `WriterRequest`. -/
inductive WriterRequest where
  | insert (d : WriterDirectory) (document : SearchDocument)
  | delete (d : WriterDirectory) (field : Field) (ctids : List Nat)
  | createIndex (d : WriterDirectory) (fields : List Nat) (uuid : Nat)
      (key_field_index : Nat)
  | dropIndex (d : WriterDirectory)
  | commit (d : WriterDirectory)
  | abort (d : WriterDirectory)
  | vacuum (d : WriterDirectory)
deriving DecidableEq, Repr

/-- The directory a request is addressed to. -/
def WriterRequest.dir : WriterRequest → WriterDirectory
  | .insert d _ => d
  | .delete d _ _ => d
  | .createIndex d _ _ _ => d
  | .dropIndex d => d
  | .commit d => d
  | .abort d => d
  | .vacuum d => d

/-- Result of dispatching one request: typed success/error, or a process crash
(from `create_index`'s `.expect`). -/
inductive Outcome where
  | ok
  | err (e : IndexError)
  | crash
deriving DecidableEq, Repr

/-- Lift an operation's `Result` into a dispatch `Outcome`. -/
def toOutcome : Except IndexError Unit → Outcome
  | .ok () => .ok
  | .error e => .err e

/-- The `Handler<WriterRequest> for Writer` dispatcher: route each typed request to
the corresponding internal operation. Returns the outcome, the post-state, and the
trace of engine/filesystem calls (non-empty only for `commit`). -/
def Writer.handle (env : Env) (s : Writer) :
    WriterRequest → Outcome × Writer × List ExtCall
  | .insert d document =>
    let (r, s1) := s.insert env d document
    (toOutcome r, s1, [])
  | .delete d field ctids =>
    let (r, s1) := s.delete env d field ctids
    (toOutcome r, s1, [])
  | .createIndex d fields uuid key_field_index =>
    match s.create_index env d fields uuid key_field_index with
    | (.ok, s1) => (.ok, s1, [])
    | (.err e, s1) => (.err e, s1, [])
    | (.crash, s1) => (.crash, s1, [])
  | .dropIndex d =>
    let (r, s1) := s.drop_index d
    (toOutcome r, s1, [])
  | .commit d =>
    let (r, s1, tr) := s.commit env d
    (toOutcome r, s1, tr)
  | .abort d =>
    let (r, s1) := s.abort env d
    (toOutcome r, s1, [])
  | .vacuum d =>
    let (r, s1) := s.vacuum env d
    (toOutcome r, s1, [])

/-! ### Concrete fixtures used by witnesses and counterexamples -/

/-- An environment in which every external call succeeds and every directory exists
on disk. -/
def envAll : Env :=
  { writer_ok := fun _ => true
    add_document_ok := fun _ => true
    exists_res := fun _ => some true
    prepare_ok := fun _ => true
    finalize_ok := fun _ => true
    rollback_ok := fun _ => true
    remove_ok := fun _ => true
    gc_ok := fun _ => true
    dir_path_ok := fun _ => true
    create_in_dir_ok := fun _ => true
    reader_ok := fun _ => true
    save_ok := fun _ => true }

/-- `envAll`, except the engine's rollback fails everywhere. -/
def envNoRollback : Env := { envAll with rollback_ok := fun _ => false }

/-- `envAll`, except the recursive directory removal fails everywhere. -/
def envNoRemove : Env := { envAll with remove_ok := fun _ => false }

/-- `envAll`, except no directory exists on disk. -/
def envAbsent : Env := { envAll with exists_res := fun _ => some false }

/-- `envAll`, except the engine's prepare-commit step fails everywhere. -/
def envNoPrepare : Env := { envAll with prepare_ok := fun _ => false }

/-- `envAll`, except the engine's finalize-commit step fails everywhere. -/
def envNoFinalize : Env := { envAll with finalize_ok := fun _ => false }

/-- `envAll`, except the engine cannot create an index in any directory (e.g. the
location already exists and is non-empty). -/
def envNoCreate : Env := { envAll with create_in_dir_ok := fun _ => false }

/-- A state with one cached writer (one buffered document) at directory `0`, which
is also in the drop-pending set. -/
def statePending : Writer :=
  { tantivy_writers := fun x => if x = 0 then some ⟨0, [.addDoc 5], []⟩ else none
    drop_requested := fun x => x == 0
    next_id := 1 }

/-! ### Helper lemmas about `get_writer` -/

/-- `get_writer` never touches the drop-pending set. -/
theorem get_writer_drop_requested (env : Env) (s : Writer) (d x : WriterDirectory) :
    (s.get_writer env d).2.drop_requested x = s.drop_requested x := by
  unfold Writer.get_writer
  cases h : s.tantivy_writers d
  · simp only [Writer.setEntry]
    split <;> rfl
  · rfl

/-- `get_writer` leaves cached entries at other directories untouched. -/
theorem get_writer_writers_other (env : Env) (s : Writer) (d x : WriterDirectory)
    (hx : x ≠ d) :
    (s.get_writer env d).2.tantivy_writers x = s.tantivy_writers x := by
  unfold Writer.get_writer
  cases h : s.tantivy_writers d
  · simp only [Writer.setEntry]
    split
    · simp [hx]
    · rfl
  · rfl

/-- When acquisition succeeds, the returned writer instance is exactly the cached
entry of the post-state. -/
theorem get_writer_ok_entry (env : Env) (s : Writer) (d : WriterDirectory)
    (w : IndexWriter) (h : (s.get_writer env d).1 = .ok w) :
    (s.get_writer env d).2.tantivy_writers d = some w := by
  revert h
  unfold Writer.get_writer
  cases hc : s.tantivy_writers d with
  | none =>
    by_cases hw : env.writer_ok d
    · intro h
      simp [hw] at h
      simp [hw, Writer.setEntry, h]
    · intro h
      simp [hw] at h
  | some w0 =>
    intro h
    simp at h
    simp [hc, h]

/-- `get_writer` never removes an existing cache entry. -/
theorem get_writer_keeps_some (env : Env) (s : Writer) (d x : WriterDirectory)
    (w : IndexWriter) (h : s.tantivy_writers x = some w) :
    (s.get_writer env d).2.tantivy_writers x = some w := by
  by_cases hx : x = d
  · subst hx
    unfold Writer.get_writer
    rw [h]
    exact h
  · rw [get_writer_writers_other env s d x hx]
    exact h

/-! ### Helper lemmas about the pending-drop phase of `commit` -/

/-- Post-state cache entries of the pending-drop phase: only the addressed
directory's entry, and only when its drop is pending, is removed. -/
theorem commitDropPhase_writers_eq (env : Env) (s : Writer) (d : WriterDirectory)
    (tr : List ExtCall) (x : WriterDirectory) :
    (Writer.commitDropPhase env s d tr).2.1.tantivy_writers x =
      if s.drop_requested d = true ∧ x = d then none else s.tantivy_writers x := by
  unfold Writer.commitDropPhase
  by_cases hp : s.drop_requested d
  · by_cases hr : env.remove_ok d <;>
      by_cases hx : x = d <;>
        simp [hp, hr, hx, Writer.clearDrop, Writer.eraseEntry]
  · simp only [Bool.not_eq_true] at hp
    simp [hp]

/-- Post-state drop-pending membership of the pending-drop phase: the addressed
directory is never pending afterwards; others are untouched. -/
theorem commitDropPhase_drop_eq (env : Env) (s : Writer) (d : WriterDirectory)
    (tr : List ExtCall) (x : WriterDirectory) :
    (Writer.commitDropPhase env s d tr).2.1.drop_requested x =
      if x = d then false else s.drop_requested x := by
  unfold Writer.commitDropPhase
  by_cases hp : s.drop_requested d
  · by_cases hr : env.remove_ok d <;>
      by_cases hx : x = d <;>
        simp [hp, hr, hx, Writer.clearDrop, Writer.eraseEntry]
  · simp only [Bool.not_eq_true] at hp
    by_cases hx : x = d <;> simp [hp, hx]

/-- Call trace of the pending-drop phase: the recursive removal is invoked exactly
when the drop is pending. -/
theorem commitDropPhase_trace_eq (env : Env) (s : Writer) (d : WriterDirectory)
    (tr : List ExtCall) :
    (Writer.commitDropPhase env s d tr).2.2 =
      if s.drop_requested d = true then tr ++ [.remove d] else tr := by
  unfold Writer.commitDropPhase
  by_cases hp : s.drop_requested d <;>
    by_cases hr : env.remove_ok d <;> simp [hp, hr]

/-- Result of the pending-drop phase: success unless a pending removal fails. -/
theorem commitDropPhase_res_eq (env : Env) (s : Writer) (d : WriterDirectory)
    (tr : List ExtCall) :
    (Writer.commitDropPhase env s d tr).1 =
      if s.drop_requested d = true then
        (if env.remove_ok d = true then .ok () else .error (.RemoveFailed d))
      else .ok () := by
  unfold Writer.commitDropPhase
  by_cases hp : s.drop_requested d <;>
    by_cases hr : env.remove_ok d <;> simp [hp, hr]

/-! ### Per-operation frame lemmas (state at other directories) -/

/-- `insert` leaves the cache entry and drop-pending membership of every other
directory untouched. -/
theorem insert_frame (env : Env) (s : Writer) (d : WriterDirectory)
    (document : SearchDocument) (x : WriterDirectory) (hx : x ≠ d) :
    (s.insert env d document).2.tantivy_writers x = s.tantivy_writers x ∧
    (s.insert env d document).2.drop_requested x = s.drop_requested x := by
  have h1 := get_writer_writers_other env s d x hx
  have h2 := get_writer_drop_requested env s d x
  unfold Writer.insert
  split
  · rename_i e s1 heq
    rw [heq] at h1 h2
    simp at h1 h2
    exact ⟨h1, h2⟩
  · rename_i w s1 heq
    rw [heq] at h1 h2
    simp at h1 h2
    by_cases ha : env.add_document_ok document <;>
      simp [ha, Writer.setEntry, hx, h1, h2]

/-- `delete` leaves the cache entry and drop-pending membership of every other
directory untouched. -/
theorem delete_frame (env : Env) (s : Writer) (d : WriterDirectory)
    (ctid_field : Field) (ctid_values : List Nat) (x : WriterDirectory) (hx : x ≠ d) :
    (s.delete env d ctid_field ctid_values).2.tantivy_writers x = s.tantivy_writers x ∧
    (s.delete env d ctid_field ctid_values).2.drop_requested x = s.drop_requested x := by
  have h1 := get_writer_writers_other env s d x hx
  have h2 := get_writer_drop_requested env s d x
  unfold Writer.delete
  split
  · rename_i e s1 heq
    rw [heq] at h1 h2
    simp at h1 h2
    exact ⟨h1, h2⟩
  · rename_i w s1 heq
    rw [heq] at h1 h2
    simp at h1 h2
    simp [Writer.setEntry, hx, h1, h2]

/-- `vacuum` leaves the cache entry and drop-pending membership of every other
directory untouched. -/
theorem vacuum_frame (env : Env) (s : Writer) (d : WriterDirectory)
    (x : WriterDirectory) (hx : x ≠ d) :
    (s.vacuum env d).2.tantivy_writers x = s.tantivy_writers x ∧
    (s.vacuum env d).2.drop_requested x = s.drop_requested x := by
  have h1 := get_writer_writers_other env s d x hx
  have h2 := get_writer_drop_requested env s d x
  unfold Writer.vacuum
  split
  · rename_i e s1 heq
    rw [heq] at h1 h2
    simp at h1 h2
    exact ⟨h1, h2⟩
  · rename_i w s1 heq
    rw [heq] at h1 h2
    simp at h1 h2
    by_cases hg : env.gc_ok d <;> simp [hg, h1, h2]

/-- `commit` leaves the cache entry and drop-pending membership of every other
directory untouched. -/
theorem commit_frame (env : Env) (s : Writer) (d : WriterDirectory)
    (x : WriterDirectory) (hx : x ≠ d) :
    (s.commit env d).2.1.tantivy_writers x = s.tantivy_writers x ∧
    (s.commit env d).2.1.drop_requested x = s.drop_requested x := by
  unfold Writer.commit
  cases hex : env.exists_res d with
  | none => exact ⟨rfl, rfl⟩
  | some b =>
    cases b with
    | false =>
      simp only
      refine ⟨?_, ?_⟩
      · rw [commitDropPhase_writers_eq]
        simp [hx]
      · rw [commitDropPhase_drop_eq]
        simp [hx]
    | true =>
      simp only
      split
      · rename_i e s1 heq
        have h1 := get_writer_writers_other env s d x hx
        have h2 := get_writer_drop_requested env s d x
        rw [heq] at h1 h2
        simp at h1 h2
        exact ⟨h1, h2⟩
      · rename_i w s1 heq
        have h1 := get_writer_writers_other env s d x hx
        have h2 := get_writer_drop_requested env s d x
        rw [heq] at h1 h2
        simp at h1 h2
        by_cases hp : env.prepare_ok d
        · by_cases hf : env.finalize_ok d
          · simp only [hp, hf, if_true]
            refine ⟨?_, ?_⟩
            · rw [commitDropPhase_writers_eq]
              simp [hx, Writer.setEntry, h1]
            · rw [commitDropPhase_drop_eq]
              simp [hx, Writer.setEntry, h2]
          · simp [hp, hf, h1, h2]
        · simp [hp, h1, h2]

/-- `abort` leaves the cache entry and drop-pending membership of every other
directory untouched. -/
theorem abort_frame (env : Env) (s : Writer) (d : WriterDirectory)
    (x : WriterDirectory) (hx : x ≠ d) :
    (s.abort env d).2.tantivy_writers x = s.tantivy_writers x ∧
    (s.abort env d).2.drop_requested x = s.drop_requested x := by
  unfold Writer.abort
  cases hw : s.tantivy_writers d with
  | none => simp [Writer.clearDrop, hx]
  | some w =>
    by_cases hr : env.rollback_ok d <;>
      simp [hr, Writer.setEntry, Writer.clearDrop, hx]

/-- `create_index` never changes the writer state at all. -/
theorem create_index_state (env : Env) (s : Writer) (d : WriterDirectory)
    (fields : List Nat) (uuid : Nat) (key_field_index : Nat) :
    (s.create_index env d fields uuid key_field_index).2 = s := by
  unfold Writer.create_index
  split_ifs <;> rfl

/-- `drop_index` leaves the cache and the drop-pending membership of every other
directory untouched. -/
theorem drop_index_frame (s : Writer) (d : WriterDirectory)
    (x : WriterDirectory) (hx : x ≠ d) :
    (s.drop_index d).2.tantivy_writers x = s.tantivy_writers x ∧
    (s.drop_index d).2.drop_requested x = s.drop_requested x := by
  unfold Writer.drop_index
  simp [Writer.markDrop, hx]

/-- Claim C9: every operation addressed to a directory `req.dir` (insert, delete,
create-index, drop-index, commit, abort, vacuum) leaves the cached writer entry and
the drop-pending membership of every other directory `x ≠ req.dir` unchanged. -/
theorem handle_frames_other_directories (env : Env) (s : Writer) (req : WriterRequest)
    (x : WriterDirectory) (hx : x ≠ req.dir) :
    (Writer.handle env s req).2.1.tantivy_writers x = s.tantivy_writers x ∧
    (Writer.handle env s req).2.1.drop_requested x = s.drop_requested x := by
  cases req with
  | insert d doc =>
    simp only [WriterRequest.dir] at hx
    have h := insert_frame env s d doc x hx
    unfold Writer.handle
    simpa using h
  | delete d f vs =>
    simp only [WriterRequest.dir] at hx
    have h := delete_frame env s d f vs x hx
    unfold Writer.handle
    simpa using h
  | createIndex d fields uuid k =>
    have h := create_index_state env s d fields uuid k
    unfold Writer.handle
    rcases hop : s.create_index env d fields uuid k with ⟨o, s1⟩
    rw [hop] at h
    simp at h
    subst h
    cases o <;> simp [hop]
  | dropIndex d =>
    simp only [WriterRequest.dir] at hx
    have h := drop_index_frame s d x hx
    unfold Writer.handle
    simpa using h
  | commit d =>
    simp only [WriterRequest.dir] at hx
    have h := commit_frame env s d x hx
    unfold Writer.handle
    simpa using h
  | abort d =>
    simp only [WriterRequest.dir] at hx
    have h := abort_frame env s d x hx
    unfold Writer.handle
    simpa using h
  | vacuum d =>
    simp only [WriterRequest.dir] at hx
    have h := vacuum_frame env s d x hx
    unfold Writer.handle
    simpa using h

/-- Witness for C9: committing directory 0 (with its drop pending) leaves directory
1's absent cache entry and non-pending status unchanged. -/
theorem handle_frames_other_directories_witness :
    (Writer.handle envAll statePending (.commit 0)).2.1.tantivy_writers 1 =
      statePending.tantivy_writers 1 ∧
    (Writer.handle envAll statePending (.commit 0)).2.1.drop_requested 1 =
      statePending.drop_requested 1 :=
  handle_frames_other_directories envAll statePending (.commit 0) 1 (by decide)

/-- Claim C7: `drop_index` always succeeds, only records the directory in the
drop-pending set (the writer cache is untouched, and no external call is made —
`drop_index` does not even consult the environment), and is idempotent: dropping an
already-pending directory leaves the resulting drop-pending set unchanged, so two
consecutive drops equal one. -/
theorem drop_index_always_succeeds_and_idempotent (s : Writer) (d : WriterDirectory) :
    (s.drop_index d).1 = .ok () ∧
    (s.drop_index d).2.tantivy_writers = s.tantivy_writers ∧
    (s.drop_index d).2.drop_requested d = true ∧
    (∀ x, x ≠ d → (s.drop_index d).2.drop_requested x = s.drop_requested x) ∧
    (∀ x, (((s.drop_index d).2.drop_index d).2.drop_requested x =
      (s.drop_index d).2.drop_requested x) ∧
      ((s.drop_index d).2.drop_index d).2.tantivy_writers x =
      (s.drop_index d).2.tantivy_writers x) := by
  refine ⟨rfl, rfl, ?_, ?_, ?_⟩
  · simp [Writer.drop_index, Writer.markDrop]
  · intro x hx
    simp [Writer.drop_index, Writer.markDrop, hx]
  · intro x
    refine ⟨?_, rfl⟩
    by_cases hx : x = d <;> simp [Writer.drop_index, Writer.markDrop, hx]

/-- Witness for C7: at directory 0 from the empty state, the second drop changes
nothing, and directory 1's membership is untouched. -/
theorem drop_index_always_succeeds_and_idempotent_witness :
    (Writer.new.drop_index 0).2.drop_requested 1 = Writer.new.drop_requested 1 ∧
    ((Writer.new.drop_index 0).2.drop_index 0).2.drop_requested 0 =
      (Writer.new.drop_index 0).2.drop_requested 0 :=
  ⟨(drop_index_always_succeeds_and_idempotent Writer.new 0).2.2.2.1 1 (by decide),
   ((drop_index_always_succeeds_and_idempotent Writer.new 0).2.2.2.2 0).1⟩

/-- Counterexample to Claim C2 as stated: with a writer cached for directory 0,
directory 0 in the drop-pending set, and the engine rollback failing, `abort`
returns `RollbackFailed` early (the `?` operator) and directory 0 is still in the
drop-pending set afterwards — the clearing is not unconditional. -/
theorem abort_rollback_failure_keeps_drop_pending :
    (Writer.abort envNoRollback statePending 0).1 = .error (.RollbackFailed 0) ∧
    (Writer.abort envNoRollback statePending 0).2.drop_requested 0 = true := by
  constructor <;> rfl

/-- Claim C2 (amended): `abort` clears the directory's drop-pending entry whenever
no writer is cached for the directory or the engine rollback succeeds — in
particular whenever `abort` returns success, and regardless of whether a writer was
cached; but when a cached writer's rollback fails, `abort` returns `RollbackFailed`
before reaching the clearing step and the state, including the drop-pending
membership, is unchanged. -/
theorem abort_clears_drop_pending_unless_rollback_fails (env : Env) (s : Writer)
    (d : WriterDirectory) :
    (s.tantivy_writers d = none ∨ env.rollback_ok d = true →
      (s.abort env d).1 = .ok () ∧ (s.abort env d).2.drop_requested d = false) ∧
    (∀ w, s.tantivy_writers d = some w → env.rollback_ok d = false →
      (s.abort env d).1 = .error (.RollbackFailed d) ∧ (s.abort env d).2 = s) := by
  constructor
  · intro h
    unfold Writer.abort
    rcases h with h | h
    · rw [h]
      simp [Writer.clearDrop]
    · cases hw : s.tantivy_writers d with
      | none => simp [Writer.clearDrop]
      | some w => simp [h, Writer.setEntry, Writer.clearDrop]
  · intro w hw hr
    unfold Writer.abort
    rw [hw]
    simp [hr]

/-- Witness for the amended C2: aborting directory 0 with a cached writer and a
successful rollback clears the pending drop. -/
theorem abort_clears_drop_pending_unless_rollback_fails_witness :
    (Writer.abort envAll statePending 0).1 = .ok () ∧
    (Writer.abort envAll statePending 0).2.drop_requested 0 = false :=
  (abort_clears_drop_pending_unless_rollback_fails envAll statePending 0).1
    (.inr rfl)

/-- Claim C6: `create_index` fails with `SchemaError` — creating nothing, state
unchanged — when the key field index does not name a field of the built schema; but
when the schema is fine and the on-disk location is unusable (the engine cannot
create the index there, e.g. the directory already exists and is non-empty), the
source's `.expect("failed to create index")` crashes the process instead of
returning the typed `IoError` result the spec promises. -/
theorem create_index_schema_error_or_crash (env : Env) (s : Writer)
    (d : WriterDirectory) (fields : List Nat) (uuid : Nat) (k : Nat) :
    (schemaKeyFieldValid fields k = false →
      s.create_index env d fields uuid k = (.err .SchemaError, s)) ∧
    (schemaKeyFieldValid fields k = true → env.dir_path_ok d = true →
      env.create_in_dir_ok d = false →
      s.create_index env d fields uuid k = (.crash, s)) := by
  constructor
  · intro h
    unfold Writer.create_index
    simp [h]
  · intro h1 h2 h3
    unfold Writer.create_index
    simp [h1, h2, h3]

/-- Witness for C6: a concrete invalid key-field index yields `SchemaError`; a
concrete unusable location yields the crash outcome. -/
theorem create_index_schema_error_or_crash_witness :
    Writer.create_index envAll Writer.new 0 [7] 0 1 = (.err .SchemaError, Writer.new) ∧
    Writer.create_index envNoCreate Writer.new 0 [7] 0 0 = (.crash, Writer.new) :=
  ⟨(create_index_schema_error_or_crash envAll Writer.new 0 [7] 0 1).1 (by decide),
   (create_index_schema_error_or_crash envNoCreate Writer.new 0 [7] 0 0).2
     (by decide) rfl rfl⟩

/-- Claim C8: `delete` acquires the writer for the directory and, whenever
acquisition succeeds, returns success and appends exactly one term-deletion
tombstone against `ctid_field` per value of `ctid_values`, in order, to that
writer's uncommitted buffer (its durable `committed` mutations untouched — nothing
is made durable); when acquisition fails, the acquisition error is returned. -/
theorem delete_buffers_one_tombstone_per_value (env : Env) (s : Writer)
    (d : WriterDirectory) (f : Field) (vs : List Nat) :
    (∀ w, (s.get_writer env d).1 = .ok w →
      s.delete env d f vs =
        (.ok (), (s.get_writer env d).2.setEntry d
          { w with buffer := w.buffer ++ vs.map (WriterOp.deleteTerm f) }) ∧
      (vs.map (WriterOp.deleteTerm f)).length = vs.length) ∧
    (∀ e, (s.get_writer env d).1 = .error e →
      s.delete env d f vs = (.error e, (s.get_writer env d).2)) := by
  constructor
  · intro w hw
    refine ⟨?_, by simp⟩
    unfold Writer.delete
    rcases hg : s.get_writer env d with ⟨r, s1⟩
    rw [hg] at hw
    simp at hw
    subst hw
    simp
  · intro e he
    unfold Writer.delete
    rcases hg : s.get_writer env d with ⟨r, s1⟩
    rw [hg] at he
    simp at he
    subst he
    simp

/-- Witness for C8: deleting keys 1 and 2 against field 7 at directory 0 buffers
exactly the two tombstones after the existing buffered document. -/
theorem delete_buffers_one_tombstone_per_value_witness :
    Writer.delete envAll statePending 0 7 [1, 2] =
      (.ok (), (statePending.get_writer envAll 0).2.setEntry 0
        { (⟨0, [.addDoc 5], []⟩ : IndexWriter) with
            buffer := [WriterOp.addDoc 5] ++ [1, 2].map (WriterOp.deleteTerm 7) }) :=
  ((delete_buffers_one_tombstone_per_value envAll statePending 0 7 [1, 2]).1
    ⟨0, [.addDoc 5], []⟩ rfl).1

/-! ### Cache entries are never removed except by a committed drop -/

/-- `insert` never removes a cache entry. -/
theorem insert_keeps_some (env : Env) (s : Writer) (d : WriterDirectory)
    (doc : SearchDocument) (x : WriterDirectory) (w : IndexWriter)
    (h : s.tantivy_writers x = some w) :
    ∃ w1, (s.insert env d doc).2.tantivy_writers x = some w1 := by
  have hk := get_writer_keeps_some env s d x w h
  unfold Writer.insert
  split
  · rename_i e s1 heq
    rw [heq] at hk
    simp at hk
    exact ⟨w, hk⟩
  · rename_i w0 s1 heq
    rw [heq] at hk
    simp at hk
    by_cases ha : env.add_document_ok doc
    · by_cases hx : x = d
      · exact ⟨{ w0 with buffer := w0.buffer ++ [.addDoc doc] },
          by simp [ha, Writer.setEntry, hx]⟩
      · exact ⟨w, by simp [ha, Writer.setEntry, hx, hk]⟩
    · exact ⟨w, by simp [ha, hk]⟩

/-- `delete` never removes a cache entry. -/
theorem delete_keeps_some (env : Env) (s : Writer) (d : WriterDirectory)
    (f : Field) (vs : List Nat) (x : WriterDirectory) (w : IndexWriter)
    (h : s.tantivy_writers x = some w) :
    ∃ w1, (s.delete env d f vs).2.tantivy_writers x = some w1 := by
  have hk := get_writer_keeps_some env s d x w h
  unfold Writer.delete
  split
  · rename_i e s1 heq
    rw [heq] at hk
    simp at hk
    exact ⟨w, hk⟩
  · rename_i w0 s1 heq
    rw [heq] at hk
    simp at hk
    by_cases hx : x = d
    · exact ⟨{ w0 with buffer := w0.buffer ++ vs.map (WriterOp.deleteTerm f) },
        by simp [Writer.setEntry, hx]⟩
    · exact ⟨w, by simp [Writer.setEntry, hx, hk]⟩

/-- `vacuum` never removes a cache entry. -/
theorem vacuum_keeps_some (env : Env) (s : Writer) (d : WriterDirectory)
    (x : WriterDirectory) (w : IndexWriter)
    (h : s.tantivy_writers x = some w) :
    ∃ w1, (s.vacuum env d).2.tantivy_writers x = some w1 := by
  have hk := get_writer_keeps_some env s d x w h
  unfold Writer.vacuum
  split
  · rename_i e s1 heq
    rw [heq] at hk
    simp at hk
    exact ⟨w, hk⟩
  · rename_i w0 s1 heq
    rw [heq] at hk
    simp at hk
    by_cases hg : env.gc_ok d <;> exact ⟨w, by simp [hg, hk]⟩

/-- `abort` never removes a cache entry. -/
theorem abort_keeps_some (env : Env) (s : Writer) (d : WriterDirectory)
    (x : WriterDirectory) (w : IndexWriter)
    (h : s.tantivy_writers x = some w) :
    ∃ w1, (s.abort env d).2.tantivy_writers x = some w1 := by
  unfold Writer.abort
  cases hw : s.tantivy_writers d with
  | none => exact ⟨w, by simp [Writer.clearDrop, h]⟩
  | some w0 =>
    by_cases hr : env.rollback_ok d
    · by_cases hx : x = d
      · exact ⟨{ w0 with buffer := [] },
          by simp [hr, Writer.setEntry, Writer.clearDrop, hx]⟩
      · exact ⟨w, by simp [hr, Writer.setEntry, Writer.clearDrop, hx, h]⟩
    · exact ⟨w, by simp [hr, h]⟩

/-- When its directory's drop is not pending, `commit` keeps the cached entry. -/
theorem commit_keeps_some_not_pending (env : Env) (s : Writer) (d : WriterDirectory)
    (w : IndexWriter) (h : s.tantivy_writers d = some w)
    (hdrop : s.drop_requested d = false) :
    ∃ w1, (s.commit env d).2.1.tantivy_writers d = some w1 := by
  unfold Writer.commit
  cases hex : env.exists_res d with
  | none => exact ⟨w, h⟩
  | some b =>
    cases b with
    | false =>
      refine ⟨w, ?_⟩
      simp only
      rw [commitDropPhase_writers_eq]
      simp [hdrop, h]
    | true =>
      simp only
      split
      · rename_i e s1 heq
        have hk := get_writer_keeps_some env s d d w h
        rw [heq] at hk
        simp at hk
        exact ⟨w, hk⟩
      · rename_i w0 s1 heq
        have hk := get_writer_keeps_some env s d d w h
        have hd := get_writer_drop_requested env s d d
        rw [heq] at hk hd
        simp at hk hd
        by_cases hp : env.prepare_ok d
        · by_cases hf : env.finalize_ok d
          · refine ⟨{ w0 with buffer := [], committed := w0.committed ++ w0.buffer }, ?_⟩
            simp only [hp, hf, if_true]
            rw [commitDropPhase_writers_eq]
            simp [Writer.setEntry, hd, hdrop]
          · exact ⟨w, by simp [hp, hf, hk]⟩
        · exact ⟨w, by simp [hp, hk]⟩

/-- `commit` removes a cache entry only for its own directory, and only when that
directory's drop was pending. -/
theorem commit_evicts_only_pending (env : Env) (s : Writer) (d x : WriterDirectory)
    (w : IndexWriter) (h : s.tantivy_writers x = some w)
    (hnone : (s.commit env d).2.1.tantivy_writers x = none) :
    x = d ∧ s.drop_requested d = true := by
  by_cases hx : x = d
  · subst hx
    refine ⟨rfl, ?_⟩
    by_contra hdrop
    simp only [Bool.not_eq_true] at hdrop
    obtain ⟨w1, hw1⟩ := commit_keeps_some_not_pending env s x w h hdrop
    rw [hw1] at hnone
    simp at hnone
  · have hfr := (commit_frame env s d x hx).1
    rw [hnone, h] at hfr
    simp at hfr

/-- Claim C5: a first successful acquire of a directory inserts exactly one cache
entry (a fresh writer instance; entries of all other directories untouched), every
subsequent acquire returns that same cached instance with the state unchanged (the
map — a function from directory to at most one writer — holds one entry per
directory by construction), and no dispatched request ever evicts a cached entry
except a commit of that very directory while its drop is pending. -/
theorem acquire_caches_and_reuses_one_writer (env : Env) (s : Writer)
    (d : WriterDirectory) :
    (s.tantivy_writers d = none → env.writer_ok d = true →
      (s.get_writer env d).1 = .ok ⟨s.next_id, [], []⟩ ∧
      (s.get_writer env d).2.tantivy_writers d = some ⟨s.next_id, [], []⟩ ∧
      (∀ x, x ≠ d → (s.get_writer env d).2.tantivy_writers x = s.tantivy_writers x)) ∧
    (∀ w, s.tantivy_writers d = some w → s.get_writer env d = (.ok w, s)) ∧
    (∀ req w, s.tantivy_writers d = some w →
      (Writer.handle env s req).2.1.tantivy_writers d = none →
      req = .commit d ∧ s.drop_requested d = true) := by
  refine ⟨?_, ?_, ?_⟩
  · intro hnone hok
    refine ⟨?_, ?_, ?_⟩
    · unfold Writer.get_writer
      rw [hnone]
      simp [hok]
    · unfold Writer.get_writer
      rw [hnone]
      simp [hok, Writer.setEntry]
    · intro x hx
      exact get_writer_writers_other env s d x hx
  · intro w hw
    unfold Writer.get_writer
    rw [hw]
  · intro req w hcache hnone
    cases req with
    | insert d0 doc =>
      exfalso
      obtain ⟨w1, hw1⟩ := insert_keeps_some env s d0 doc d w hcache
      unfold Writer.handle at hnone
      simp at hnone
      rw [hw1] at hnone
      simp at hnone
    | delete d0 f vs =>
      exfalso
      obtain ⟨w1, hw1⟩ := delete_keeps_some env s d0 f vs d w hcache
      unfold Writer.handle at hnone
      simp at hnone
      rw [hw1] at hnone
      simp at hnone
    | createIndex d0 fields uuid k =>
      exfalso
      have hst := create_index_state env s d0 fields uuid k
      unfold Writer.handle at hnone
      rcases hop : s.create_index env d0 fields uuid k with ⟨o, s1⟩
      rw [hop] at hst
      simp at hst
      subst hst
      simp only [hop] at hnone
      cases o <;> simp at hnone <;> rw [hcache] at hnone <;> simp at hnone
    | dropIndex d0 =>
      exfalso
      unfold Writer.handle at hnone
      simp [Writer.drop_index, Writer.markDrop] at hnone
      rw [hcache] at hnone
      simp at hnone
    | commit d0 =>
      unfold Writer.handle at hnone
      simp at hnone
      obtain ⟨h1, h2⟩ := commit_evicts_only_pending env s d0 d w hcache hnone
      subst h1
      exact ⟨rfl, h2⟩
    | abort d0 =>
      exfalso
      obtain ⟨w1, hw1⟩ := abort_keeps_some env s d0 d w hcache
      unfold Writer.handle at hnone
      simp at hnone
      rw [hw1] at hnone
      simp at hnone
    | vacuum d0 =>
      exfalso
      obtain ⟨w1, hw1⟩ := vacuum_keeps_some env s d0 d w hcache
      unfold Writer.handle at hnone
      simp at hnone
      rw [hw1] at hnone
      simp at hnone

/-- Witness for C5: from the empty state, acquiring directory 0 caches the fresh
writer with identity 0, and a second acquire returns exactly that instance with the
state unchanged. -/
theorem acquire_caches_and_reuses_one_writer_witness :
    (Writer.new.get_writer envAll 0).2.tantivy_writers 0 = some ⟨0, [], []⟩ ∧
    (Writer.new.get_writer envAll 0).2.get_writer envAll 0 =
      (.ok ⟨0, [], []⟩, (Writer.new.get_writer envAll 0).2) :=
  ⟨((acquire_caches_and_reuses_one_writer envAll Writer.new 0).1 rfl rfl).2.1,
   (acquire_caches_and_reuses_one_writer envAll
      (Writer.new.get_writer envAll 0).2 0).2.1 ⟨0, [], []⟩
     ((acquire_caches_and_reuses_one_writer envAll Writer.new 0).1 rfl rfl).2.1⟩

/-! ### The engine-success path of `commit` -/

/-- On the engine-success path (directory exists, writer acquired, both engine
commit steps succeed), `commit` equals the pending-drop phase applied to the
post-acquisition state whose acquired writer has its buffer committed. -/
theorem commit_success_step (env : Env) (s : Writer) (d : WriterDirectory)
    (w : IndexWriter) (hex : env.exists_res d = some true)
    (hw : (s.get_writer env d).1 = .ok w)
    (hp : env.prepare_ok d = true) (hf : env.finalize_ok d = true) :
    s.commit env d =
      Writer.commitDropPhase env
        ((s.get_writer env d).2.setEntry d
          { w with buffer := [], committed := w.committed ++ w.buffer })
        d [.prepare d, .finalize d] := by
  unfold Writer.commit
  rw [hex]
  simp only
  rcases hg : s.get_writer env d with ⟨r, s1⟩
  rw [hg] at hw
  simp at hw
  subst hw
  simp [hp, hf]

/-- `commit` never invokes the physical removal of a directory whose drop is not
pending. -/
theorem commit_no_remove_unless_pending (env : Env) (s : Writer)
    (d : WriterDirectory) (h : s.drop_requested d = false) :
    ExtCall.remove d ∉ (s.commit env d).2.2 := by
  unfold Writer.commit
  cases hex : env.exists_res d with
  | none => simp
  | some b =>
    cases b with
    | false =>
      simp only
      rw [commitDropPhase_trace_eq]
      simp [h]
    | true =>
      simp only
      split
      · rename_i e s1 heq
        simp
      · rename_i w s1 heq
        have hd := get_writer_drop_requested env s d d
        rw [heq] at hd
        simp at hd
        by_cases hp : env.prepare_ok d
        · by_cases hf : env.finalize_ok d
          · simp only [hp, hf, if_true]
            rw [commitDropPhase_trace_eq]
            simp [Writer.setEntry, hd, h]
          · simp [hp, hf]
        · simp [hp]

/-- Claim C1: if the directory is drop-pending when `commit` is called and the
commit of the buffered writes succeeds (directory exists, writer acquirable, both
engine steps succeed), then `commit` removes the cached writer entry for the
directory — dropping the handle without committing it again (the only engine calls
in the trace are the single prepare/finalize pair already issued) — invokes the
recursive physical removal of the directory's storage, and removes the directory
from the drop-pending set; the whole commit succeeds when the removal does. -/
theorem commit_executes_pending_drop (env : Env) (s : Writer) (d : WriterDirectory)
    (hex : env.exists_res d = some true) (hwk : env.writer_ok d = true)
    (hp : env.prepare_ok d = true) (hf : env.finalize_ok d = true)
    (hpend : s.drop_requested d = true) :
    (s.commit env d).2.1.tantivy_writers d = none ∧
    (s.commit env d).2.1.drop_requested d = false ∧
    (s.commit env d).2.2 = [.prepare d, .finalize d, .remove d] ∧
    (env.remove_ok d = true → (s.commit env d).1 = .ok ()) := by
  have hget : ∃ w, (s.get_writer env d).1 = .ok w := by
    unfold Writer.get_writer
    cases hc : s.tantivy_writers d with
    | none => exact ⟨⟨s.next_id, [], []⟩, by simp [hwk]⟩
    | some w0 => exact ⟨w0, rfl⟩
  obtain ⟨w, hw⟩ := hget
  rw [commit_success_step env s d w hex hw hp hf]
  have hsd : ((s.get_writer env d).2.setEntry d
      { w with buffer := [], committed := w.committed ++ w.buffer }).drop_requested d
      = true := by
    simp [Writer.setEntry, get_writer_drop_requested env s d d, hpend]
  refine ⟨?_, ?_, ?_, ?_⟩
  · rw [commitDropPhase_writers_eq]
    simp [hsd]
  · rw [commitDropPhase_drop_eq]
    simp
  · rw [commitDropPhase_trace_eq]
    simp [hsd]
  · intro hrm
    rw [commitDropPhase_res_eq]
    simp [hsd, hrm]

/-- Witness for C1: committing directory 0 of `statePending` under `envAll` drops
the cached writer, clears the pending drop, issues exactly
prepare/finalize/remove, and succeeds. -/
theorem commit_executes_pending_drop_witness :
    (statePending.commit envAll 0).2.1.tantivy_writers 0 = none ∧
    (statePending.commit envAll 0).2.1.drop_requested 0 = false ∧
    (statePending.commit envAll 0).2.2 = [.prepare 0, .finalize 0, .remove 0] ∧
    (statePending.commit envAll 0).1 = .ok () :=
  ⟨(commit_executes_pending_drop envAll statePending 0 rfl rfl rfl rfl rfl).1,
   (commit_executes_pending_drop envAll statePending 0 rfl rfl rfl rfl rfl).2.1,
   (commit_executes_pending_drop envAll statePending 0 rfl rfl rfl rfl rfl).2.2.1,
   (commit_executes_pending_drop envAll statePending 0 rfl rfl rfl rfl rfl).2.2.2 rfl⟩

/-- Claim C10: in `commit` with the directory drop-pending and the engine commit
succeeding, the pending entry and the cached writer entry are removed before the
physical removal is attempted: when the removal fails, the error propagates to the
caller, yet the directory is no longer drop-pending and no writer remains cached
for it, so a retried commit — under any environment — never invokes the physical
removal of this directory again. -/
theorem commit_failed_removal_not_retried (env : Env) (s : Writer)
    (d : WriterDirectory)
    (hex : env.exists_res d = some true) (hwk : env.writer_ok d = true)
    (hp : env.prepare_ok d = true) (hf : env.finalize_ok d = true)
    (hpend : s.drop_requested d = true) (hrm : env.remove_ok d = false) :
    (s.commit env d).1 = .error (.RemoveFailed d) ∧
    (s.commit env d).2.1.tantivy_writers d = none ∧
    (s.commit env d).2.1.drop_requested d = false ∧
    (∀ env1 : Env, ExtCall.remove d ∉ ((s.commit env d).2.1.commit env1 d).2.2) := by
  have hget : ∃ w, (s.get_writer env d).1 = .ok w := by
    unfold Writer.get_writer
    cases hc : s.tantivy_writers d with
    | none => exact ⟨⟨s.next_id, [], []⟩, by simp [hwk]⟩
    | some w0 => exact ⟨w0, rfl⟩
  obtain ⟨w, hw⟩ := hget
  rw [commit_success_step env s d w hex hw hp hf]
  have hsd : ((s.get_writer env d).2.setEntry d
      { w with buffer := [], committed := w.committed ++ w.buffer }).drop_requested d
      = true := by
    simp [Writer.setEntry, get_writer_drop_requested env s d d, hpend]
  refine ⟨?_, ?_, ?_, ?_⟩
  · rw [commitDropPhase_res_eq]
    simp [hsd, hrm]
  · rw [commitDropPhase_writers_eq]
    simp [hsd]
  · rw [commitDropPhase_drop_eq]
    simp
  · intro env1
    apply commit_no_remove_unless_pending
    rw [commitDropPhase_drop_eq]
    simp

/-- Witness for C10: under a failing removal, committing pending directory 0
surfaces `RemoveFailed`, clears the pending entry and the cache entry, and a
retried commit under the all-success environment issues no removal call. -/
theorem commit_failed_removal_not_retried_witness :
    (statePending.commit envNoRemove 0).1 = .error (.RemoveFailed 0) ∧
    (statePending.commit envNoRemove 0).2.1.tantivy_writers 0 = none ∧
    ExtCall.remove 0 ∉ (((statePending.commit envNoRemove 0).2.1).commit envAll 0).2.2 :=
  ⟨(commit_failed_removal_not_retried envNoRemove statePending 0 rfl rfl rfl rfl rfl rfl).1,
   (commit_failed_removal_not_retried envNoRemove statePending 0 rfl rfl rfl rfl rfl rfl).2.1,
   (commit_failed_removal_not_retried envNoRemove statePending 0 rfl rfl rfl rfl rfl rfl).2.2.2
     envAll⟩

/-- Claim C3: committing a directory that does not exist on disk issues no engine
prepare or finalize call and cannot fail on the engine path (any error can only be
the pending removal's `RemoveFailed`); the pending-drop cleanup still runs — the
directory ends up not pending; if it was pending its cache entry is gone and the
removal was invoked (succeeding commit overall when the removal succeeds); if it
was not pending, the commit returns success with the state unchanged. -/
theorem commit_missing_directory_no_engine_error (env : Env) (s : Writer)
    (d : WriterDirectory) (hex : env.exists_res d = some false) :
    (∀ x, ExtCall.prepare x ∉ (s.commit env d).2.2 ∧
      ExtCall.finalize x ∉ (s.commit env d).2.2) ∧
    (∀ e, (s.commit env d).1 = .error e → e = .RemoveFailed d) ∧
    (s.commit env d).2.1.drop_requested d = false ∧
    (s.drop_requested d = true →
      (s.commit env d).2.1.tantivy_writers d = none ∧
      ExtCall.remove d ∈ (s.commit env d).2.2 ∧
      (env.remove_ok d = true → (s.commit env d).1 = .ok ())) ∧
    (s.drop_requested d = false →
      (s.commit env d).1 = .ok () ∧ (s.commit env d).2.1 = s) := by
  have hc : s.commit env d = Writer.commitDropPhase env s d [] := by
    simp [Writer.commit, hex]
  rw [hc]
  refine ⟨?_, ?_, ?_, ?_, ?_⟩
  · intro x
    rw [commitDropPhase_trace_eq]
    by_cases hpend : s.drop_requested d <;> simp [hpend]
  · intro e he
    rw [commitDropPhase_res_eq] at he
    by_cases hpend : s.drop_requested d
    · by_cases hrm : env.remove_ok d
      · simp [hpend, hrm] at he
      · simp [hpend, hrm] at he
        exact he.symm
    · simp [hpend] at he
  · rw [commitDropPhase_drop_eq]
    simp
  · intro hpend
    refine ⟨?_, ?_, ?_⟩
    · rw [commitDropPhase_writers_eq]
      simp [hpend]
    · rw [commitDropPhase_trace_eq]
      simp [hpend]
    · intro hrm
      rw [commitDropPhase_res_eq]
      simp [hpend, hrm]
  · intro hpend
    constructor
    · rw [commitDropPhase_res_eq]
      simp [hpend]
    · unfold Writer.commitDropPhase
      simp [hpend]

/-- Witness for C3: committing absent, drop-pending directory 0 issues no prepare
call, removes the cache entry, and succeeds. -/
theorem commit_missing_directory_no_engine_error_witness :
    ExtCall.prepare 0 ∉ (statePending.commit envAbsent 0).2.2 ∧
    (statePending.commit envAbsent 0).2.1.tantivy_writers 0 = none ∧
    (statePending.commit envAbsent 0).1 = .ok () :=
  ⟨((commit_missing_directory_no_engine_error envAbsent statePending 0 rfl).1 0).1,
   ((commit_missing_directory_no_engine_error envAbsent statePending 0 rfl).2.2.2.1 rfl).1,
   ((commit_missing_directory_no_engine_error envAbsent statePending 0 rfl).2.2.2.1 rfl).2.2
     rfl⟩

/-- Claim C4: when the directory exists and the writer is acquired, the two-step
engine commit is ordered so that a failed prepare never finalizes: on prepare
failure `commit` returns that failure with only the prepare call in the trace, on
finalize failure it returns that failure (the drop phase is not reached), and on
either engine failure the acquired writer stays cached unchanged — its buffered
mutations remain uncommitted. -/
theorem commit_failed_prepare_never_finalizes (env : Env) (s : Writer)
    (d : WriterDirectory) (w : IndexWriter)
    (hex : env.exists_res d = some true) (hw : (s.get_writer env d).1 = .ok w) :
    (env.prepare_ok d = false →
      s.commit env d =
        (.error (.PrepareCommitFailed d), (s.get_writer env d).2, [.prepare d])) ∧
    (env.prepare_ok d = true → env.finalize_ok d = false →
      s.commit env d =
        (.error (.CommitFailed d), (s.get_writer env d).2,
          [.prepare d, .finalize d])) ∧
    (env.prepare_ok d = false ∨ env.finalize_ok d = false →
      (s.commit env d).2.1.tantivy_writers d = some w) := by
  have hentry := get_writer_ok_entry env s d w hw
  have h1 : env.prepare_ok d = false →
      s.commit env d =
        (.error (.PrepareCommitFailed d), (s.get_writer env d).2, [.prepare d]) := by
    intro hp
    unfold Writer.commit
    rw [hex]
    simp only
    rcases hg : s.get_writer env d with ⟨r, s1⟩
    rw [hg] at hw
    simp at hw
    subst hw
    simp [hp]
  have h2 : env.prepare_ok d = true → env.finalize_ok d = false →
      s.commit env d =
        (.error (.CommitFailed d), (s.get_writer env d).2,
          [.prepare d, .finalize d]) := by
    intro hp hf
    unfold Writer.commit
    rw [hex]
    simp only
    rcases hg : s.get_writer env d with ⟨r, s1⟩
    rw [hg] at hw
    simp at hw
    subst hw
    simp [hp, hf]
  refine ⟨h1, h2, ?_⟩
  intro hor
  rcases hor with hp | hf
  · rw [h1 hp]
    simpa using hentry
  · by_cases hp : env.prepare_ok d
    · rw [h2 hp hf]
      simpa using hentry
    · simp only [Bool.not_eq_true] at hp
      rw [h1 hp]
      simpa using hentry

/-- Witness for C4: with a failing prepare, committing directory 0 returns the
prepare failure, issues no finalize call, and the cached writer with its buffered
document is untouched. -/
theorem commit_failed_prepare_never_finalizes_witness :
    Writer.commit envNoPrepare statePending 0 =
      (.error (.PrepareCommitFailed 0), (statePending.get_writer envNoPrepare 0).2,
        [.prepare 0]) ∧
    (Writer.commit envNoPrepare statePending 0).2.1.tantivy_writers 0 =
      some ⟨0, [.addDoc 5], []⟩ :=
  ⟨(commit_failed_prepare_never_finalizes envNoPrepare statePending 0
      ⟨0, [.addDoc 5], []⟩ rfl rfl).1 rfl,
   (commit_failed_prepare_never_finalizes envNoPrepare statePending 0
      ⟨0, [.addDoc 5], []⟩ rfl rfl).2.2 (.inl rfl)⟩

end PgSearch
